import Mathlib

/-!
Shallow embedding of the hal-stepper core: the sleep/wake state machine of
src/stepper/set_sleep_mode.rs and the A4988 driver adapter of
src/drivers/a4988.rs.

External collaborators (embedded-hal OutputPin, fugit-timer Timer) are
modelled as scripted objects: each holds a list of pre-decided outcomes for
its successive fallible calls, plus an observation log (levels written,
durations started, number of wait calls).  This lets every theorem quantify
over all possible behaviours of the hardware while keeping the embedded
functions executable.
-/

namespace HalStepper

/-- Digital output level, mirroring embedded-hal PinState (set_low writes
Low, set_high writes High). -/
inductive PinState where
  | Low
  | High
deriving DecidableEq

/-- Model of an embedded-hal OutputPin.  The schedule scripts the outcome of
each successive write: none means the write succeeds, some e means it fails
with pin error e; once the schedule is exhausted all further writes succeed.
The writes field logs, in order, every level successfully written. -/
structure Pin (E : Type) where
  schedule : List (Option E)
  writes : List PinState
deriving DecidableEq

/-- OutputPin set_state / set_low / set_high: consume the next scheduled
outcome; on success append the level to the write log, on failure leave the
log untouched and return the error. -/
def Pin.set {E : Type} (p : Pin E) (l : PinState) : Option E × Pin E :=
  match p.schedule with
  | [] => (none, { p with writes := p.writes ++ [l] })
  | none :: rest => (none, { schedule := rest, writes := p.writes ++ [l] })
  | some e :: rest => (some e, { p with schedule := rest })

/-- Outcome of one fugit-timer wait call: Ok(()) is ready, nb WouldBlock is
not-yet, nb Other e is a timer error. -/
inductive WaitResp (E : Type) where
  | ready
  | wouldBlock
  | err (e : E)
deriving DecidableEq

/-- Model of a fugit-timer countdown timer.  startResponses scripts the
outcome of each successive start call (none = Ok, some e = Err e; exhausted
means success), waitResponses scripts each successive wait call (exhausted
means WouldBlock).  started logs the duration (in nanoseconds of the
requested real-time constant) of every successful start; waitCalls counts
wait calls. -/
structure Timer (E : Type) where
  startResponses : List (Option E)
  waitResponses : List (WaitResp E)
  started : List Nat
  waitCalls : Nat
deriving DecidableEq

/-- Timer::start(duration): consume the next scheduled start outcome; on
success log the duration. -/
def Timer.start {E : Type} (t : Timer E) (d : Nat) : Option E × Timer E :=
  match t.startResponses with
  | [] => (none, { t with started := t.started ++ [d] })
  | none :: rest =>
    (none, { t with startResponses := rest, started := t.started ++ [d] })
  | some e :: rest => (some e, { t with startResponses := rest })

/-- Timer::wait(): consume the next scheduled wait outcome (WouldBlock when
the script is exhausted) and count the call. -/
def Timer.wait {E : Type} (t : Timer E) : WaitResp E × Timer E :=
  match t.waitResponses with
  | [] => (.wouldBlock, { t with waitCalls := t.waitCalls + 1 })
  | r :: rest =>
    (r, { t with waitResponses := rest, waitCalls := t.waitCalls + 1 })

/-- SignalError from src/stepper: tagged union of capability-unavailable
(PinUnavailable), pin write failure (Pin) and timer failure (Timer),
parameterized over the collaborators' error types. -/
inductive SignalError (DE PE TE : Type) where
  | PinUnavailable (e : DE)
  | Pin (e : PE)
  | Timer (e : TE)
deriving DecidableEq

/-- The SetSleepMode side of a driver, as used by SetSleepModeFuture:
the SETUP_TIME and WAKE_UP_TIME constants (in nanoseconds) and the sleep()
accessor, which yields the sleep pin or fails with the driver error
(sleepErr = some e models a failing accessor; for the A4988 the error type
is Infallible, i.e. Empty, so it is always none). -/
structure SleepDriver (DE PE : Type) where
  SETUP_TIME : Nat
  WAKE_UP_TIME : Nat
  sleepErr : Option DE
  sleepPin : Pin PE
deriving DecidableEq

/-- The private State enum of set_sleep_mode.rs. -/
inductive State where
  | Initial
  | WakingUp
  | SleepModeSet
  | Finished
deriving DecidableEq

/-- core::task::Poll. -/
inductive Poll (A : Type) where
  | Pending
  | Ready (a : A)
deriving DecidableEq

/-- SetSleepModeFuture: sleep_mode_enabled target flag, owned driver and
timer, and the current state. -/
structure SetSleepModeFuture (DE PE TE : Type) where
  sleep_mode_enabled : Bool
  driver : SleepDriver DE PE
  timer : Timer TE
  state : State
deriving DecidableEq

/-- SetSleepModeFuture::new. -/
def SetSleepModeFuture.new {DE PE TE : Type} (b : Bool)
    (d : SleepDriver DE PE) (t : Timer TE) : SetSleepModeFuture DE PE TE :=
  ⟨b, d, t, .Initial⟩

/-- The common tail of the State::Initial branch of poll (lines 87-97 of
set_sleep_mode.rs), reached after the pin write and the state update: start
the timer for SETUP_TIME; a start failure aborts the poll call with
SignalError::Timer via the question-mark operator; otherwise report
Poll::Pending. -/
def startSetup {DE PE TE : Type} (f : SetSleepModeFuture DE PE TE) :
    Poll (Except (SignalError DE PE TE) Unit) × SetSleepModeFuture DE PE TE :=
  match f.timer.start f.driver.SETUP_TIME with
  | (some e, t) => (.Ready (.error (.Timer e)), { f with timer := t })
  | (none, t) => (.Pending, { f with timer := t })

/-- SetSleepModeFuture::poll, translated branch for branch from
set_sleep_mode.rs lines 56-133.  The question-mark early returns of the Rust
become the error arms; note that in the Initial branch the state field is
updated after the successful pin write and before the timer start, and that
in the WakingUp branch a start failure returns before the state is set to
SleepModeSet, so the state stays WakingUp there. -/
def SetSleepModeFuture.poll {DE PE TE : Type}
    (f : SetSleepModeFuture DE PE TE) :
    Poll (Except (SignalError DE PE TE) Unit) × SetSleepModeFuture DE PE TE :=
  match f.state with
  | .Initial =>
    if f.sleep_mode_enabled then
      match f.driver.sleepErr with
      | some e => (.Ready (.error (.PinUnavailable e)), f)
      | none =>
        match f.driver.sleepPin.set .Low with
        | (some e, p) =>
          (.Ready (.error (.Pin e)),
            { f with driver := { f.driver with sleepPin := p } })
        | (none, p) =>
          startSetup
            { f with driver := { f.driver with sleepPin := p },
                     state := .SleepModeSet }
    else
      match f.driver.sleepErr with
      | some e => (.Ready (.error (.PinUnavailable e)), f)
      | none =>
        match f.driver.sleepPin.set .High with
        | (some e, p) =>
          (.Ready (.error (.Pin e)),
            { f with driver := { f.driver with sleepPin := p } })
        | (none, p) =>
          startSetup
            { f with driver := { f.driver with sleepPin := p },
                     state := .WakingUp }
  | .WakingUp =>
    match f.timer.wait with
    | (.ready, t) =>
      match t.start f.driver.WAKE_UP_TIME with
      | (some e, t2) => (.Ready (.error (.Timer e)), { f with timer := t2 })
      | (none, t2) =>
        (.Ready (.ok ()), { f with timer := t2, state := .SleepModeSet })
    | (.err e, t) =>
      (.Ready (.error (.Timer e)), { f with timer := t, state := .Finished })
    | (.wouldBlock, t) => (.Pending, { f with timer := t })
  | .SleepModeSet =>
    match f.timer.wait with
    | (.ready, t) =>
      (.Ready (.ok ()), { f with timer := t, state := .Finished })
    | (.err e, t) =>
      (.Ready (.error (.Timer e)), { f with timer := t, state := .Finished })
    | (.wouldBlock, t) => (.Pending, { f with timer := t })
  | .Finished => (.Ready (.ok ()), f)

/-- SetSleepModeFuture::wait (lines 139-154): busy-loop poll until it
returns Ready.  The loop is given explicit fuel; none means the fuel ran out
before the operation finished (the Rust loop would still be running). -/
def SetSleepModeFuture.wait {DE PE TE : Type} :
    Nat → SetSleepModeFuture DE PE TE →
    Option (Except (SignalError DE PE TE) Unit × SetSleepModeFuture DE PE TE)
  | 0, _ => none
  | n + 1, f =>
    match f.poll with
    | (.Ready r, f1) => some (r, f1)
    | (.Pending, f1) => SetSleepModeFuture.wait n f1

/-- Modelled from the spec: the manual loop that repeatedly calls poll until
it returns ready, against which SetSleepModeFuture::wait is compared (spec
section 8, busy-wait equivalence).  Same fuel discipline as wait. -/
def pollLoop {DE PE TE : Type} :
    Nat → SetSleepModeFuture DE PE TE →
    Option (Except (SignalError DE PE TE) Unit × SetSleepModeFuture DE PE TE)
  | 0, _ => none
  | n + 1, f =>
    match f.poll with
    | (.Ready r, f1) => some (r, f1)
    | (.Pending, f1) => pollLoop n f1

/-- SetSleepModeFuture::release (lines 157-159): return the driver and timer
moved into the future; nothing else happens. -/
def SetSleepModeFuture.release {DE PE TE : Type}
    (f : SetSleepModeFuture DE PE TE) : SleepDriver DE PE × Timer TE :=
  (f.driver, f.timer)

/-- Iterate poll n times, keeping only the evolving future (used to speak
about the operation after an arbitrary number of polls). -/
def pollIter {DE PE TE : Type} :
    Nat → SetSleepModeFuture DE PE TE → SetSleepModeFuture DE PE TE
  | 0, f => f
  | n + 1, f => pollIter n f.poll.2

/-- StepMode16, the microstep enumeration for the A4988 family: full step
and the 1/2, 1/4, 1/8, 1/16 microstep resolutions.  The enumeration lives in
src/step_mode.rs (not in the provided sources); its five variants are fixed
by the exhaustive, wildcard-free match in A4988::apply_mode_config. -/
inductive StepMode16 where
  | Full
  | M2
  | M4
  | M8
  | M16
deriving DecidableEq

/-- The fixed mode-pin mapping table of A4988::apply_mode_config
(a4988.rs lines 113-119): the (mode0, mode1, mode2) levels for each step
mode. -/
def modeConfig : StepMode16 → PinState × PinState × PinState
  | .Full => (.Low, .Low, .Low)
  | .M2 => (.High, .Low, .Low)
  | .M4 => (.Low, .High, .Low)
  | .M8 => (.High, .High, .Low)
  | .M16 => (.High, .High, .High)

/-- The three mode pins of an A4988 with step-mode control enabled, the only
fields A4988::apply_mode_config touches (the reset, step and dir slots of
the receiver are never read or written by it). -/
structure A4988ModePins (E : Type) where
  mode0 : Pin E
  mode1 : Pin E
  mode2 : Pin E
deriving DecidableEq

/-- A4988::apply_mode_config (a4988.rs lines 107-127): look up the level
triple for the step mode, then write mode0, mode1, mode2 in that order; the
question-mark operator propagates the first pin write failure, aborting
before the later writes; on success return Ok(()).  No timer appears in the
signature or the body: the call is synchronous. -/
def A4988.apply_mode_config {E : Type} (d : A4988ModePins E)
    (step_mode : StepMode16) : Option E × A4988ModePins E :=
  match modeConfig step_mode with
  | (l0, l1, l2) =>
    match d.mode0.set l0 with
    | (some e, p0) => (some e, { d with mode0 := p0 })
    | (none, p0) =>
      match d.mode1.set l1 with
      | (some e, p1) => (some e, { d with mode0 := p0, mode1 := p1 })
      | (none, p1) =>
        match d.mode2.set l2 with
        | (some e, p2) => (some e, ⟨p0, p1, p2⟩)
        | (none, p2) => (none, ⟨p0, p1, p2⟩)

/-- A4988 SetStepMode SETUP_TIME (a4988.rs line 101), in nanoseconds. -/
def A4988.STEP_MODE_SETUP_TIME : Nat := 200

/-- A4988 SetStepMode HOLD_TIME (a4988.rs line 102), in nanoseconds. -/
def A4988.STEP_MODE_HOLD_TIME : Nat := 200

/-- A4988 SetSleepMode SETUP_TIME (a4988.rs line 248), in nanoseconds. -/
def A4988.SETUP_TIME : Nat := 200

/-- A4988 SetSleepMode WAKE_UP_TIME (a4988.rs line 252): 1 millisecond,
i.e. 1000000 nanoseconds. -/
def A4988.WAKE_UP_TIME : Nat := 1000000

/-- The SetSleepMode view of an A4988 with sleep-mode control: the sleep()
accessor has error type Infallible (modelled by Empty), so sleepErr is none,
and the timing constants are the datasheet values above. -/
def A4988.sleepDriver {PE : Type} (pin : Pin PE) : SleepDriver Empty PE :=
  ⟨A4988.SETUP_TIME, A4988.WAKE_UP_TIME, none, pin⟩

/-- The slot-state of an A4988 value: which of the nine pin slots hold a
concrete OutputPin type (true) and which hold the unit placeholder ()
(false).  This erases the Rust type-state A4988 of
Enable, Fault, Sleep, Reset, Mode0, Mode1, Mode2, Step, Dir to the
presence information the capability impls constrain. -/
structure PinSlots where
  enable : Bool
  fault : Bool
  sleep : Bool
  reset : Bool
  mode0 : Bool
  mode1 : Bool
  mode2 : Bool
  step : Bool
  dir : Bool
deriving DecidableEq

/-- Slot-state of A4988::new (a4988.rs lines 44-59): every slot unit. -/
def PinSlots.new : PinSlots :=
  ⟨false, false, false, false, false, false, false, false, false⟩

/-- EnableStepModeControl for A4988 (a4988.rs lines 61-89): the impl
receiver is A4988 with unit in the enable, fault, sleep, reset and mode
slots and arbitrary Step, Dir; the result adds the reset and mode pins.
At slot level: defined exactly on receivers matching that type, none
otherwise (the method does not exist on other instantiations). -/
def PinSlots.enable_step_mode_control (s : PinSlots) : Option PinSlots :=
  if s.enable = false ∧ s.fault = false ∧ s.sleep = false ∧ s.reset = false ∧
      s.mode0 = false ∧ s.mode1 = false ∧ s.mode2 = false then
    some { s with reset := true, mode0 := true, mode1 := true, mode2 := true }
  else
    none

/-- EnableDirectionControl for A4988 (a4988.rs lines 134-156): receiver has
unit in enable, fault, sleep, dir; arbitrary Reset, Mode0-2, Step; the
result adds the dir pin. -/
def PinSlots.enable_direction_control (s : PinSlots) : Option PinSlots :=
  if s.enable = false ∧ s.fault = false ∧ s.sleep = false ∧ s.dir = false then
    some { s with dir := true }
  else
    none

/-- EnableStepControl for A4988 (a4988.rs lines 175-197): receiver has unit
in enable, fault, sleep, step; arbitrary Reset, Mode0-2, Dir; the result
adds the step pin. -/
def PinSlots.enable_step_control (s : PinSlots) : Option PinSlots :=
  if s.enable = false ∧ s.fault = false ∧ s.sleep = false ∧ s.step = false then
    some { s with step := true }
  else
    none

/-- EnableSleepModeControl for A4988 (a4988.rs lines 216-239): the impl
receiver is A4988 with Sleep : OutputPin in the sleep slot — i.e. the sleep
slot already holds a pin type, since unit implements no OutputPin — and
unit in every other slot; WithSleepModeControl is that same type, the
method replacing the sleep field.  At slot level: defined exactly on
receivers matching that type, leaving the slot-state unchanged. -/
def PinSlots.enable_sleep_mode_control (s : PinSlots) : Option PinSlots :=
  if s.enable = false ∧ s.fault = false ∧ s.sleep = true ∧ s.reset = false ∧
      s.mode0 = false ∧ s.mode1 = false ∧ s.mode2 = false ∧
      s.step = false ∧ s.dir = false then
    some s
  else
    none

/-! Helper definitions and lemmas shared by the claim theorems. -/

/-- Rank of a state in the phase order Initial, WakingUp, SleepModeSet,
Finished. -/
def State.rank : State → Nat
  | .Initial => 0
  | .WakingUp => 1
  | .SleepModeSet => 2
  | .Finished => 3

/-- Whether a poll outcome is a Ready error. -/
def pollIsError {DE PE TE : Type} :
    Poll (Except (SignalError DE PE TE) Unit) → Bool
  | .Ready (.error _) => true
  | _ => false

/-- One legal transition of the wake path: stay in place or move to the
immediate successor in Initial, WakingUp, SleepModeSet, Finished. -/
def wakeStep (s t : State) : Prop :=
  t = s ∨ (s = .Initial ∧ t = .WakingUp) ∨
    (s = .WakingUp ∧ t = .SleepModeSet) ∨
    (s = .SleepModeSet ∧ t = .Finished)

/-- Polling a Finished future returns Ready(Ok(())) and changes nothing. -/
theorem poll_finished {DE PE TE : Type} (f : SetSleepModeFuture DE PE TE)
    (h : f.state = .Finished) : f.poll = (.Ready (.ok ()), f) := by
  obtain ⟨b, d, t, s⟩ := f
  cases h
  rfl

/-- Iterating poll from a Finished future leaves it untouched. -/
theorem pollIter_finished {DE PE TE : Type} (n : Nat)
    (f : SetSleepModeFuture DE PE TE) (h : f.state = .Finished) :
    pollIter n f = f := by
  induction n generalizing f with
  | zero => rfl
  | succ n ih =>
    show pollIter n f.poll.2 = f
    rw [poll_finished f h]
    exact ih f h

/-- C1: starting a sleep operation with target awake on a fresh driver and
timer, the first poll writes the sleep pin High, starts a timer for
SETUP_TIME and reports Pending; once that timer reports ready, the next
poll starts a timer for WAKE_UP_TIME and reports Ready(Ok(())) — while the
wake-up timer has not been waited on at all (exactly one wait call has
happened, and the remaining wait script is untouched), so completion is
reported before the wake-up timer has elapsed. -/
theorem c1_wake_scenario (PE TE : Type) (ps : List (Option PE))
    (w0 : List PinState) (sr : List (Option TE)) (wr : List (WaitResp TE))
    (S W : Nat) :
    let f : SetSleepModeFuture Empty PE TE :=
      .new false ⟨S, W, none, ⟨none :: ps, w0⟩⟩
        ⟨none :: none :: sr, .ready :: wr, [], 0⟩
    f.poll.1 = .Pending ∧
    f.poll.2.state = .WakingUp ∧
    f.poll.2.driver.sleepPin.writes = w0 ++ [.High] ∧
    f.poll.2.timer.started = [S] ∧
    f.poll.2.poll.1 = .Ready (.ok ()) ∧
    f.poll.2.poll.2.state = .SleepModeSet ∧
    f.poll.2.poll.2.timer.started = [S, W] ∧
    f.poll.2.poll.2.timer.waitCalls = 1 ∧
    f.poll.2.poll.2.timer.waitResponses = wr := by
  exact ⟨rfl, rfl, rfl, rfl, rfl, rfl, rfl, rfl, rfl⟩

/-- One legal transition of the sleep path: stay in place or move to the
immediate successor in Initial, SleepModeSet, Finished (WakingUp is not a
phase of the sleep path). -/
def sleepStep (s t : State) : Prop :=
  t = s ∨ (s = .Initial ∧ t = .SleepModeSet) ∨
    (s = .SleepModeSet ∧ t = .Finished)

/-- Poll never changes the sleep_mode_enabled target flag. -/
theorem poll_keeps_target {DE PE TE : Type}
    (f : SetSleepModeFuture DE PE TE) :
    f.poll.2.sleep_mode_enabled = f.sleep_mode_enabled := by
  obtain ⟨b, ⟨S, W, se, ⟨ps, w⟩⟩, ⟨sr, wr, st, wc⟩, s⟩ := f
  cases s <;> cases b <;>
    rcases se with _ | e <;>
    rcases ps with _ | ⟨_ | pe, ps⟩ <;>
    rcases sr with _ | ⟨_ | te, sr⟩ <;>
    rcases wr with _ | ⟨_ | _ | we, wr⟩ <;>
    simp [SetSleepModeFuture.poll, startSetup, Pin.set, Timer.start,
      Timer.wait]

/-- On the sleep path a poll never enters WakingUp. -/
theorem poll_no_wakeup {DE PE TE : Type} (f : SetSleepModeFuture DE PE TE)
    (hb : f.sleep_mode_enabled = true) (hs : f.state ≠ .WakingUp) :
    f.poll.2.state ≠ .WakingUp := by
  obtain ⟨b, ⟨S, W, se, ⟨ps, w⟩⟩, ⟨sr, wr, st, wc⟩, s⟩ := f
  cases hb
  cases s <;>
    rcases se with _ | e <;>
    rcases ps with _ | ⟨_ | pe, ps⟩ <;>
    rcases sr with _ | ⟨_ | te, sr⟩ <;>
    rcases wr with _ | ⟨_ | _ | we, wr⟩ <;>
    simp_all [SetSleepModeFuture.poll, startSetup, Pin.set, Timer.start,
      Timer.wait]

/-- On the sleep path the WakingUp phase is unreachable from any future
not already in it, however many polls are made. -/
theorem pollIter_no_wakeup {DE PE TE : Type} :
    ∀ (n : Nat) (f : SetSleepModeFuture DE PE TE),
    f.sleep_mode_enabled = true → f.state ≠ .WakingUp →
    (pollIter n f).state ≠ .WakingUp := by
  intro n
  induction n with
  | zero => exact fun f _ hs => hs
  | succ n ih =>
    intro f hb hs
    exact ih f.poll.2 ((poll_keeps_target f).trans hb) (poll_no_wakeup f hb hs)

/-- C4: a sleep-mode state machine never reports Ready(Ok(())) from a
not-yet-Finished state unless the next scheduled wait outcome of its timer
is ready (completion requires the governing timer to report ready in that
phase); the phase rank Initial, WakingUp, SleepModeSet, Finished never
decreases across a poll; on the wake path an error-free poll moves the
state along the chain Initial, WakingUp, SleepModeSet, Finished by at most
one step; on the sleep path an error-free poll moves along Initial,
SleepModeSet, Finished by at most one step; and on the sleep path the
WakingUp phase never occurs at all, starting from a fresh operation. -/
theorem c4_ordering (DE PE TE : Type) :
    (∀ f : SetSleepModeFuture DE PE TE, f.state ≠ .Finished →
      f.poll.1 = .Ready (.ok ()) →
      f.timer.waitResponses.head? = some .ready) ∧
    (∀ f : SetSleepModeFuture DE PE TE,
      f.state.rank ≤ f.poll.2.state.rank) ∧
    (∀ f : SetSleepModeFuture DE PE TE, f.sleep_mode_enabled = false →
      pollIsError f.poll.1 = false → wakeStep f.state f.poll.2.state) ∧
    (∀ f : SetSleepModeFuture DE PE TE, f.sleep_mode_enabled = true →
      f.state ≠ .WakingUp → pollIsError f.poll.1 = false →
      sleepStep f.state f.poll.2.state) ∧
    (∀ (d : SleepDriver DE PE) (t : Timer TE) (n : Nat),
      (pollIter n (SetSleepModeFuture.new true d t)).state ≠ .WakingUp) := by
  have mega : ∀ f : SetSleepModeFuture DE PE TE,
      (f.state ≠ .Finished → f.poll.1 = .Ready (.ok ()) →
        f.timer.waitResponses.head? = some .ready) ∧
      f.state.rank ≤ f.poll.2.state.rank ∧
      (f.sleep_mode_enabled = false → pollIsError f.poll.1 = false →
        wakeStep f.state f.poll.2.state) ∧
      (f.sleep_mode_enabled = true → f.state ≠ .WakingUp →
        pollIsError f.poll.1 = false →
        sleepStep f.state f.poll.2.state) := by
    intro f
    obtain ⟨b, ⟨S, W, se, ⟨ps, w⟩⟩, ⟨sr, wr, st, wc⟩, s⟩ := f
    cases s <;> cases b <;>
      rcases se with _ | e <;>
      rcases ps with _ | ⟨_ | pe, ps⟩ <;>
      rcases sr with _ | ⟨_ | te, sr⟩ <;>
      rcases wr with _ | ⟨_ | _ | we, wr⟩ <;>
      simp [SetSleepModeFuture.poll, startSetup, Pin.set, Timer.start,
        Timer.wait, State.rank, pollIsError, wakeStep, sleepStep]
  refine ⟨fun f => (mega f).1, fun f => (mega f).2.1,
    fun f => (mega f).2.2.1, fun f => (mega f).2.2.2, ?_⟩
  intro d t n
  exact pollIter_no_wakeup n (SetSleepModeFuture.new true d t) rfl
    (fun h => State.noConfusion h)

/-- Witness for c4_ordering: a concrete future in SleepModeSet whose timer
reports ready has a ready wait-script head, and the transition taken is
the legal single step to Finished. -/
theorem c4_ordering_witness :
    (⟨false, ⟨200, 1000000, none, ⟨[], []⟩⟩, ⟨[], [.ready], [], 0⟩,
        .SleepModeSet⟩ :
      SetSleepModeFuture Unit Unit Unit).timer.waitResponses.head? =
        some .ready ∧
    wakeStep State.SleepModeSet
      (⟨false, ⟨200, 1000000, none, ⟨[], []⟩⟩, ⟨[], [.ready], [], 0⟩,
          .SleepModeSet⟩ :
        SetSleepModeFuture Unit Unit Unit).poll.2.state := by
  have h := c4_ordering Unit Unit Unit
  exact ⟨h.1 ⟨false, ⟨200, 1000000, none, ⟨[], []⟩⟩, ⟨[], [.ready], [], 0⟩,
      .SleepModeSet⟩ (by decide) rfl,
    h.2.2.1 ⟨false, ⟨200, 1000000, none, ⟨[], []⟩⟩, ⟨[], [.ready], [], 0⟩,
      .SleepModeSet⟩ rfl rfl⟩

/-- Whether the next write on this pin is scheduled to succeed. -/
def Pin.nextOk {E : Type} (p : Pin E) : Bool :=
  match p.schedule with
  | some _ :: _ => false
  | _ => true

/-- A poll from a waiting phase (WakingUp or SleepModeSet) never touches the
driver (hence never writes the sleep pin) and calls the timer's wait exactly
once. -/
theorem poll_waiting_frame {DE PE TE : Type} (f : SetSleepModeFuture DE PE TE)
    (h : f.state = .WakingUp ∨ f.state = .SleepModeSet) :
    f.poll.2.driver = f.driver ∧
    f.poll.2.timer.waitCalls = f.timer.waitCalls + 1 := by
  obtain ⟨b, d, ⟨sr, wr, st, wc⟩, s⟩ := f
  rcases h with h | h <;> cases h <;>
    rcases wr with _ | ⟨_ | _ | we, wr⟩ <;>
    rcases sr with _ | ⟨_ | te, sr⟩ <;>
    simp [SetSleepModeFuture.poll, Timer.wait, Timer.start]

/-- C2 counterexample: on the slot-state with only the sleep slot holding a
pin, enable_sleep_mode_control is defined, but flipping only the step slot
to present makes it undefined — so it does require the step slot in a
particular state; conversely enable_step_mode_control is defined on the
fresh all-unit driver but undefined as soon as the sleep slot holds a pin —
so it requires the sleep slot in a particular state.  This refutes the
claim that the two enablements are independent of each other's slots. -/
theorem c2_counterexample :
    (PinSlots.enable_sleep_mode_control
        ⟨false, false, true, false, false, false, false, false, false⟩).isSome
      = true ∧
    PinSlots.enable_sleep_mode_control
        ⟨false, false, true, false, false, false, false, true, false⟩
      = none ∧
    (PinSlots.enable_step_mode_control PinSlots.new).isSome = true ∧
    PinSlots.enable_step_mode_control
        ⟨false, false, true, false, false, false, false, false, false⟩
      = none := by
  decide

/-- C2 amended: the A4988 capability enablements are not independent.
enable_sleep_mode_control is available exactly on the slot-state whose
sleep slot holds a pin and whose eight other slots are unit, and it leaves
the slot-state unchanged; enable_step_mode_control is available exactly
when the enable, fault, sleep, reset and mode slots are all unit, and when
available it only adds the reset and mode pins, leaving the sleep, step and
dir slots as they were. -/
theorem c2_amended (s : PinSlots) :
    ((PinSlots.enable_sleep_mode_control s).isSome ↔
      s = ⟨false, false, true, false, false, false, false, false, false⟩) ∧
    (PinSlots.enable_sleep_mode_control s = none ∨
      PinSlots.enable_sleep_mode_control s = some s) ∧
    ((PinSlots.enable_step_mode_control s).isSome ↔
      (s.enable = false ∧ s.fault = false ∧ s.sleep = false ∧
        s.reset = false ∧ s.mode0 = false ∧ s.mode1 = false ∧
        s.mode2 = false)) ∧
    (PinSlots.enable_step_mode_control s = none ∨
      PinSlots.enable_step_mode_control s =
        some { s with reset := true, mode0 := true, mode1 := true,
                      mode2 := true }) := by
  obtain ⟨a, b, c, d, e, g, h, i, j⟩ := s
  revert a b c d e g h i j
  decide

/-- Witness for c2_amended at the slot-state with only a sleep pin. -/
theorem c2_amended_witness :
    (PinSlots.enable_sleep_mode_control
      ⟨false, false, true, false, false, false, false, false, false⟩).isSome :=
  (c2_amended ⟨false, false, true, false, false, false, false, false,
    false⟩).1.mpr rfl

/-- C3 counterexample: on the wake path, after the setup timer reports
ready, a failure of timer start for the wake-up duration makes poll return
a Timer error while the state was (and stays) WakingUp — not Finished — and
the following poll returns Pending, not Ready(Ok(())). -/
theorem c3_counterexample :
    let f : SetSleepModeFuture Unit Unit Unit :=
      .new false ⟨200, 1000000, none, ⟨[], []⟩⟩
        ⟨[none, some ()], [.ready, .wouldBlock], [], 0⟩
    f.poll.2.state = .WakingUp ∧
    f.poll.2.poll.1 = .Ready (.error (.Timer ())) ∧
    f.poll.2.poll.2.state = .WakingUp ∧
    f.poll.2.poll.2.poll.1 = .Pending := by
  exact ⟨rfl, rfl, rfl, rfl⟩

/-- C3 amended: after poll returns a timer error that the timer's wait call
reported in a waiting phase (WakingUp or SleepModeSet), the state is
Finished and every subsequent poll returns Ready(Ok(())).  (A timer error
from starting the wake-up timer in WakingUp instead leaves the state at
WakingUp, so the original claim does not hold for that error.) -/
theorem c3_amended (DE PE TE : Type) (f : SetSleepModeFuture DE PE TE)
    (e : TE) (hs : f.state = .WakingUp ∨ f.state = .SleepModeSet)
    (hw : f.timer.waitResponses.head? = some (.err e)) :
    f.poll.1 = .Ready (.error (.Timer e)) ∧
    f.poll.2.state = .Finished ∧
    ∀ n, (pollIter n f.poll.2).poll.1 = .Ready (.ok ()) := by
  obtain ⟨b, d, ⟨sr, wr, st, wc⟩, s⟩ := f
  rcases wr with _ | ⟨r, wr⟩
  · simp at hw
  · simp [List.head?] at hw
    subst hw
    rcases hs with h | h <;> cases h <;>
      refine ⟨rfl, rfl, fun n => ?_⟩ <;>
      · rw [pollIter_finished n _ rfl, poll_finished _ rfl]

/-- Witness for c3_amended: a concrete WakingUp future whose wait reports a
timer error moves to Finished. -/
theorem c3_amended_witness :
    (⟨true, ⟨200, 1000000, none, ⟨[], []⟩⟩, ⟨[], [.err ()], [], 0⟩,
        .WakingUp⟩ :
      SetSleepModeFuture Unit Unit Unit).poll.2.state = .Finished :=
  (c3_amended Unit Unit Unit
    ⟨true, ⟨200, 1000000, none, ⟨[], []⟩⟩, ⟨[], [.err ()], [], 0⟩, .WakingUp⟩
    () (Or.inl rfl) rfl).2.1

/-- C5: if, on the Initial poll, the sleep() accessor and the pin write
succeed but starting the setup timer fails with e, that same poll returns
Ready(Err(SignalError::Timer(e))), exactly one pin write has occurred (the
write log grew by exactly the one target level), and no timer duration was
logged as started. -/
theorem c5_initial_timer_failure (DE PE TE : Type)
    (f : SetSleepModeFuture DE PE TE) (e : TE)
    (hs : f.state = .Initial)
    (hd : f.driver.sleepErr = none)
    (hp : f.driver.sleepPin.nextOk = true)
    (ht : f.timer.startResponses.head? = some (some e)) :
    f.poll.1 = .Ready (.error (.Timer e)) ∧
    f.poll.2.driver.sleepPin.writes =
      f.driver.sleepPin.writes ++
        [if f.sleep_mode_enabled then PinState.Low else PinState.High] ∧
    f.poll.2.timer.started = f.timer.started := by
  obtain ⟨b, ⟨S, W, se, ⟨ps, w⟩⟩, ⟨sr, wr, st, wc⟩, s⟩ := f
  cases hs
  cases hd
  rcases sr with _ | ⟨r0, sr⟩
  · simp at ht
  · simp [List.head?] at ht
    subst ht
    cases b <;>
      rcases ps with _ | ⟨_ | pe, ps⟩ <;>
      simp_all [SetSleepModeFuture.poll, startSetup, Pin.set, Timer.start,
        Pin.nextOk]

/-- Witness for c5_initial_timer_failure: fresh wake-path future whose
timer refuses to start. -/
theorem c5_witness :
    ((SetSleepModeFuture.new false ⟨200, 1000000, none, ⟨[], []⟩⟩
        ⟨[some ()], [], [], 0⟩ :
      SetSleepModeFuture Unit Unit Unit)).poll.1 =
      .Ready (.error (.Timer ())) :=
  (c5_initial_timer_failure Unit Unit Unit
    (.new false ⟨200, 1000000, none, ⟨[], []⟩⟩ ⟨[some ()], [], [], 0⟩)
    () rfl rfl rfl rfl).1

/-- C10: on the Initial poll the state field is advanced before the timer
is started, so when the timer start fails the operation is left in
SleepModeSet (sleep path) or WakingUp (wake path), never Initial; the next
poll therefore goes through the waiting branch: it performs no pin write
(the driver is untouched) and calls the timer's wait exactly once. -/
theorem c10_state_advance (DE PE TE : Type)
    (f : SetSleepModeFuture DE PE TE) (e : TE)
    (hs : f.state = .Initial)
    (hd : f.driver.sleepErr = none)
    (hp : f.driver.sleepPin.nextOk = true)
    (ht : f.timer.startResponses.head? = some (some e)) :
    f.poll.2.state =
      (if f.sleep_mode_enabled then State.SleepModeSet else State.WakingUp) ∧
    f.poll.2.state ≠ .Initial ∧
    f.poll.2.poll.2.driver = f.poll.2.driver ∧
    f.poll.2.poll.2.timer.waitCalls = f.poll.2.timer.waitCalls + 1 := by
  obtain ⟨b, ⟨S, W, se, ⟨ps, w⟩⟩, ⟨sr, wr, st, wc⟩, s⟩ := f
  cases hs
  cases hd
  rcases sr with _ | ⟨r0, sr⟩
  · simp at ht
  · simp [List.head?] at ht
    subst ht
    have hstate : (SetSleepModeFuture.poll
        (⟨b, ⟨S, W, none, ⟨ps, w⟩⟩, ⟨some e :: sr, wr, st, wc⟩,
          .Initial⟩ : SetSleepModeFuture DE PE TE)).2.state =
        (if b then State.SleepModeSet else State.WakingUp) := by
      cases b <;>
        rcases ps with _ | ⟨_ | pe, ps⟩ <;>
        simp_all [SetSleepModeFuture.poll, startSetup, Pin.set, Timer.start,
          Pin.nextOk]
    refine ⟨hstate, ?_, ?_, ?_⟩
    · rw [hstate]; cases b <;> simp
    · exact (poll_waiting_frame _ (by rw [hstate]; cases b <;> simp)).1
    · exact (poll_waiting_frame _ (by rw [hstate]; cases b <;> simp)).2

/-- Witness for c10_state_advance: fresh sleep-path future whose timer
refuses to start is left in SleepModeSet, not Initial. -/
theorem c10_witness :
    ((SetSleepModeFuture.new true ⟨200, 1000000, none, ⟨[], []⟩⟩
        ⟨[some ()], [], [], 0⟩ :
      SetSleepModeFuture Unit Unit Unit)).poll.2.state ≠ .Initial :=
  (c10_state_advance Unit Unit Unit
    (.new true ⟨200, 1000000, none, ⟨[], []⟩⟩ ⟨[some ()], [], [], 0⟩)
    () rfl rfl rfl rfl).2.1

/-- C6: apply_mode_config writes the three mode pins to the levels of the
fixed table within the one call — in particular M4 maps to
(Low, High, Low) — returning Ok when all writes succeed; the first failing
write aborts the call with that error, leaving the later pins entirely
untouched.  No timer appears anywhere in the definition: the operation is
synchronous. -/
theorem c6_apply_mode_config (E : Type) (d : A4988ModePins E)
    (m : StepMode16) :
    modeConfig .M4 = (.Low, .High, .Low) ∧
    (d.mode0.nextOk = true → d.mode1.nextOk = true → d.mode2.nextOk = true →
      (A4988.apply_mode_config d m).1 = none ∧
      (A4988.apply_mode_config d m).2.mode0.writes =
        d.mode0.writes ++ [(modeConfig m).1] ∧
      (A4988.apply_mode_config d m).2.mode1.writes =
        d.mode1.writes ++ [(modeConfig m).2.1] ∧
      (A4988.apply_mode_config d m).2.mode2.writes =
        d.mode2.writes ++ [(modeConfig m).2.2]) ∧
    (∀ e, d.mode0.schedule.head? = some (some e) →
      (A4988.apply_mode_config d m).1 = some e ∧
      (A4988.apply_mode_config d m).2.mode0.writes = d.mode0.writes ∧
      (A4988.apply_mode_config d m).2.mode1 = d.mode1 ∧
      (A4988.apply_mode_config d m).2.mode2 = d.mode2) ∧
    (∀ e, d.mode0.nextOk = true →
      d.mode1.schedule.head? = some (some e) →
      (A4988.apply_mode_config d m).1 = some e ∧
      (A4988.apply_mode_config d m).2.mode1.writes = d.mode1.writes ∧
      (A4988.apply_mode_config d m).2.mode2 = d.mode2) ∧
    (∀ e, d.mode0.nextOk = true → d.mode1.nextOk = true →
      d.mode2.schedule.head? = some (some e) →
      (A4988.apply_mode_config d m).1 = some e ∧
      (A4988.apply_mode_config d m).2.mode2.writes = d.mode2.writes) := by
  obtain ⟨⟨s0, w0⟩, ⟨s1, w1⟩, ⟨s2, w2⟩⟩ := d
  cases m <;>
    rcases s0 with _ | ⟨_ | e0, s0⟩ <;>
    rcases s1 with _ | ⟨_ | e1, s1⟩ <;>
    rcases s2 with _ | ⟨_ | e2, s2⟩ <;>
    simp [A4988.apply_mode_config, modeConfig, Pin.set, Pin.nextOk,
      List.head?]

/-- Witness for c6_apply_mode_config: selecting M4 on three healthy pins
succeeds. -/
theorem c6_witness :
    (A4988.apply_mode_config
      (⟨⟨[], []⟩, ⟨[], []⟩, ⟨[], []⟩⟩ : A4988ModePins Unit) .M4).1 =
      none :=
  ((c6_apply_mode_config Unit ⟨⟨[], []⟩, ⟨[], []⟩, ⟨[], []⟩⟩
    .M4).2.1 rfl rfl rfl).1

/-- C7: the mode-pin mapping of the A4988 is total on StepMode16 (every
variant has a level triple) and injective (distinct modes map to distinct
triples). -/
theorem c7_modeConfig_total_injective :
    (∀ m : StepMode16, ∃ t, modeConfig m = t) ∧
    ∀ m1 m2 : StepMode16, modeConfig m1 = modeConfig m2 → m1 = m2 := by
  constructor
  · exact fun m => ⟨modeConfig m, rfl⟩
  · intro m1 m2 h
    cases m1 <;> cases m2 <;> simp_all [modeConfig]

/-- Witness for c7_modeConfig_total_injective at mode M2. -/
theorem c7_witness : StepMode16.M2 = StepMode16.M2 :=
  (c7_modeConfig_total_injective).2 .M2 .M2 rfl

/-- One busy-loop step when poll is Pending. -/
theorem wait_step {DE PE TE : Type} (n : Nat)
    (f f1 : SetSleepModeFuture DE PE TE) (h : f.poll = (.Pending, f1)) :
    SetSleepModeFuture.wait (n + 1) f = SetSleepModeFuture.wait n f1 := by
  simp [SetSleepModeFuture.wait, h]

/-- One busy-loop step when poll is Ready. -/
theorem wait_ready {DE PE TE : Type} (n : Nat)
    (f f1 : SetSleepModeFuture DE PE TE)
    (r : Except (SignalError DE PE TE) Unit) (h : f.poll = (.Ready r, f1)) :
    SetSleepModeFuture.wait (n + 1) f = some (r, f1) := by
  simp [SetSleepModeFuture.wait, h]

/-- A Pending poll from Initial leaves a waiting (non-Initial) state and
does not consume any wait response. -/
theorem poll_initial_pending {DE PE TE : Type}
    (f : SetSleepModeFuture DE PE TE) (hs : f.state = .Initial) :
    ∀ f1, f.poll = (.Pending, f1) →
      f1.state ≠ .Initial ∧
      f1.timer.waitResponses = f.timer.waitResponses := by
  obtain ⟨b, ⟨S, W, se, ⟨ps, w⟩⟩, ⟨sr, wr, st, wc⟩, s⟩ := f
  cases hs
  cases b <;>
    rcases se with _ | e <;>
    rcases ps with _ | ⟨_ | pe, ps⟩ <;>
    rcases sr with _ | ⟨_ | te, sr⟩ <;>
    simp [SetSleepModeFuture.poll, startSetup, Pin.set, Timer.start]

/-- From any non-Initial state, if the remaining wait script contains a
ready or an error entry, the busy loop finishes within one poll per script
entry plus one. -/
theorem wait_terminates_aux {DE PE TE : Type} :
    ∀ (l : List (WaitResp TE)) (f : SetSleepModeFuture DE PE TE),
    f.timer.waitResponses = l → f.state ≠ .Initial →
    (∃ r ∈ l, r ≠ .wouldBlock) →
    ∃ res, SetSleepModeFuture.wait (l.length + 1) f = some res := by
  intro l
  induction l with
  | nil =>
    intro f _ _ hex
    rcases hex with ⟨r, hr, _⟩
    simp at hr
  | cons r0 rest ih =>
    intro f hl hs hex
    obtain ⟨b, d, ⟨sr, wr, st, wc⟩, s⟩ := f
    have hl' : wr = r0 :: rest := hl
    subst hl'
    have hs' : s ≠ State.Initial := hs
    cases s with
    | Initial => exact absurd rfl hs'
    | Finished => exact ⟨_, rfl⟩
    | WakingUp =>
      cases r0 with
      | ready => rcases sr with _ | ⟨_ | te, sr⟩ <;> exact ⟨_, rfl⟩
      | err e => exact ⟨_, rfl⟩
      | wouldBlock =>
        rcases hex with ⟨r, hr, hne⟩
        rcases List.mem_cons.mp hr with h | h
        · exact absurd h hne
        · obtain ⟨res, hres⟩ :=
            ih ⟨b, d, ⟨sr, rest, st, wc + 1⟩, .WakingUp⟩ rfl (by simp)
              ⟨r, h, hne⟩
          exact ⟨res, hres⟩
    | SleepModeSet =>
      cases r0 with
      | ready => exact ⟨_, rfl⟩
      | err e => exact ⟨_, rfl⟩
      | wouldBlock =>
        rcases hex with ⟨r, hr, hne⟩
        rcases List.mem_cons.mp hr with h | h
        · exact absurd h hne
        · obtain ⟨res, hres⟩ :=
            ih ⟨b, d, ⟨sr, rest, st, wc + 1⟩, .SleepModeSet⟩ rfl (by simp)
              ⟨r, h, hne⟩
          exact ⟨res, hres⟩

/-- C8: the busy-wait convenience operation computes exactly what the
manual loop repeatedly calling poll until ready computes, fuel for fuel;
and whenever the timer's remaining wait script eventually reports ready or
an error, some finite fuel makes wait return a final result (it
terminates). -/
theorem c8_wait_refines_poll_loop (DE PE TE : Type) :
    (∀ (n : Nat) (f : SetSleepModeFuture DE PE TE),
      SetSleepModeFuture.wait n f = pollLoop n f) ∧
    (∀ f : SetSleepModeFuture DE PE TE,
      (∃ r ∈ f.timer.waitResponses, r ≠ .wouldBlock) →
      ∃ n res, SetSleepModeFuture.wait n f = some res) := by
  constructor
  · intro n
    induction n with
    | zero => intro f; rfl
    | succ n ih =>
      intro f
      simp only [SetSleepModeFuture.wait, pollLoop]
      cases h : f.poll with
      | mk q f1 => cases q <;> simp [ih]
  · intro f hex
    obtain ⟨b, ⟨S, W, se, ⟨ps, w⟩⟩, ⟨sr, wr, st, wc⟩, s⟩ := f
    have hex' : ∃ r ∈ wr, r ≠ WaitResp.wouldBlock := hex
    cases s with
    | Finished => exact ⟨1, _, rfl⟩
    | WakingUp =>
      obtain ⟨res, h⟩ :=
        wait_terminates_aux wr
          ⟨b, ⟨S, W, se, ⟨ps, w⟩⟩, ⟨sr, wr, st, wc⟩, .WakingUp⟩ rfl
          (by simp) hex'
      exact ⟨wr.length + 1, res, h⟩
    | SleepModeSet =>
      obtain ⟨res, h⟩ :=
        wait_terminates_aux wr
          ⟨b, ⟨S, W, se, ⟨ps, w⟩⟩, ⟨sr, wr, st, wc⟩, .SleepModeSet⟩ rfl
          (by simp) hex'
      exact ⟨wr.length + 1, res, h⟩
    | Initial =>
      rcases hpoll : SetSleepModeFuture.poll
          ⟨b, ⟨S, W, se, ⟨ps, w⟩⟩, ⟨sr, wr, st, wc⟩, .Initial⟩ with ⟨q, f1⟩
      cases q with
      | Ready r => exact ⟨1, (r, f1), wait_ready 0 _ _ _ hpoll⟩
      | Pending =>
        obtain ⟨hns, hwr⟩ := poll_initial_pending _ rfl f1 hpoll
        obtain ⟨res, h⟩ := wait_terminates_aux wr f1 (hwr.trans rfl) hns hex'
        exact ⟨wr.length + 2, res,
          by rw [wait_step (wr.length + 1) _ f1 hpoll]; exact h⟩

/-- Witness for c8_wait_refines_poll_loop: a fresh sleep-path operation
whose timer reports ready on first wait is finished off by wait with some
fuel. -/
theorem c8_witness :
    ∃ n res, SetSleepModeFuture.wait n
      (SetSleepModeFuture.new true ⟨200, 1000000, none, ⟨[], []⟩⟩
        ⟨[], [.ready], [], 0⟩ : SetSleepModeFuture Unit Unit Unit)
      = some res :=
  (c8_wait_refines_poll_loop Unit Unit Unit).2
    (SetSleepModeFuture.new true ⟨200, 1000000, none, ⟨[], []⟩⟩
      ⟨[], [.ready], [], 0⟩)
    ⟨.ready, by decide, by decide⟩

/-- C9: releasing the operation, after any number of polls on a freshly
constructed future, returns exactly the driver and timer fields as evolved
by those polls, and adds no pin write, no started duration and no wait
call of its own. -/
theorem c9_release (DE PE TE : Type) (b : Bool) (d : SleepDriver DE PE)
    (t : Timer TE) (n : Nat) :
    (pollIter n (SetSleepModeFuture.new b d t)).release =
      ((pollIter n (SetSleepModeFuture.new b d t)).driver,
        (pollIter n (SetSleepModeFuture.new b d t)).timer) ∧
    ((pollIter n (SetSleepModeFuture.new b d t)).release).1.sleepPin.writes =
      (pollIter n (SetSleepModeFuture.new b d t)).driver.sleepPin.writes ∧
    ((pollIter n (SetSleepModeFuture.new b d t)).release).2.started =
      (pollIter n (SetSleepModeFuture.new b d t)).timer.started ∧
    ((pollIter n (SetSleepModeFuture.new b d t)).release).2.waitCalls =
      (pollIter n (SetSleepModeFuture.new b d t)).timer.waitCalls :=
  ⟨rfl, rfl, rfl, rfl⟩

end HalStepper
